import Mathlib

/-!
Shallow embedding of `run_avantixrpa_gui.pyw`, the GUI launcher script of
the AVANTIXRPA repository.  The script calls the opaque entry point
`avantixrpa.ui.main_window.main()` inside a `try` / `except Exception:`
guard; the handler captures `traceback.format_exc()`, creates a tkinter
root window, withdraws it, shows a modal error dialog via
`messagebox.showerror`, and destroys the root window.  The guard is
modelled as a function from the outcome of `main()` to the trace of
observable actions the script performs, paired with the exception, if
any, that escapes the guard unhandled.
-/

namespace AvantixRPA

/-- A Python exception value as the launcher sees it: its class name, the
message it carries, and whether its class derives from `Exception` — the
class named in the handler clause.  `SystemExit`, `KeyboardInterrupt`
and `GeneratorExit` derive only from `BaseException`, so for them the
flag is `false`. -/
structure PyExc where
  clsName : String
  msg : String
  isExceptionSubclass : Bool
deriving DecidableEq

/-- Text of `traceback.format_exc()` as captured in the handler: the
standard header followed by the closing `ClassName: message` line of the
traceback (the stack-frame lines in between depend on the unseen call
stack inside `main()` and carry no information the launcher uses). -/
def format_exc (e : PyExc) : String :=
  "Traceback (most recent call last):\n" ++ e.clsName ++ ": " ++ e.msg ++ "\n"

/-- Outcome of calling the opaque GUI entry point `main()`: it either
returns normally or raises some exception. -/
inductive MainOutcome
  | returns
  | raises (e : PyExc)
deriving DecidableEq

/-- Observable actions of the launcher script: calling the entry point,
the tkinter calls the handler makes — `tk.Tk()`, `root.withdraw()`,
`messagebox.showerror(title, message)`, `root.destroy()` — and
`sys.exit(code)`, which is in the alphabet only so that its absence from
every trace is statable. -/
inductive Effect
  | callMain
  | tkInit
  | withdraw
  | showerror (title message : String)
  | destroy
  | sysExit (code : Int)
deriving DecidableEq

/-- Title argument of the `messagebox.showerror` call. -/
def errTitle : String := "AVANTIXRPA 起動エラー"

/-- First fixed line of the dialog message. -/
def msgLine1 : String := "AVANTIXRPA の起動中にエラーが発生しました。"

/-- Second fixed line of the dialog message, naming the log file. -/
def msgLine2 : String := "詳しくは logs/avantixrpa.log を確認してください。"

/-- Message argument of the `messagebox.showerror` call: the two fixed
lines, a blank line, then the interpolated traceback text — exactly how
the adjacent string literals of the source concatenate around the
f-string. -/
def errMessage (err : String) : String :=
  msgLine1 ++ "\n" ++ msgLine2 ++ "\n\n" ++ err

/-- Body of the `except Exception:` handler, in source order: bind
`err = traceback.format_exc()`, create the root window, withdraw it,
show the modal error dialog, destroy the root window. -/
def exceptBranch (e : PyExc) : List Effect :=
  [Effect.tkInit, Effect.withdraw,
   Effect.showerror errTitle (errMessage (format_exc e)), Effect.destroy]

/-- The guarded block under `if __name__ == "__main__":` — call
`main()`; an exception whose class derives from `Exception` is caught
and handled by `exceptBranch`, any other raised exception propagates out
of the guard.  The result is the trace of actions performed together
with the exception, if any, escaping unhandled. -/
def launcherGuard : MainOutcome → List Effect × Option PyExc
  | MainOutcome.returns => ([Effect.callMain], none)
  | MainOutcome.raises e =>
    if e.isExceptionSubclass then (Effect.callMain :: exceptBranch e, none)
    else ([Effect.callMain], some e)

/-- Number of `messagebox.showerror` calls in a trace. -/
def dialogCount : List Effect → Nat
  | [] => 0
  | Effect.showerror _ _ :: tr => dialogCount tr + 1
  | _ :: tr => dialogCount tr

/-- Number of `tk.Tk()` window creations in a trace. -/
def tkInitCount : List Effect → Nat
  | [] => 0
  | Effect.tkInit :: tr => tkInitCount tr + 1
  | _ :: tr => tkInitCount tr

/-- Number of `root.destroy()` calls in a trace. -/
def destroyCount : List Effect → Nat
  | [] => 0
  | Effect.destroy :: tr => destroyCount tr + 1
  | _ :: tr => destroyCount tr

/-- Number of times the entry point is invoked in a trace. -/
def callMainCount : List Effect → Nat
  | [] => 0
  | Effect.callMain :: tr => callMainCount tr + 1
  | _ :: tr => callMainCount tr

/-- Number of `sys.exit` calls in a trace. -/
def sysExitCount : List Effect → Nat
  | [] => 0
  | Effect.sysExit _ :: tr => sysExitCount tr + 1
  | _ :: tr => sysExitCount tr

/-- Window-mapping bookkeeping for the root window: whether a freshly
created toplevel is still scheduled to be mapped at the next event-loop
entry, and whether the root has ever actually been mapped on screen. -/
structure TkState where
  pendingMap : Bool
  everVisible : Bool
deriving DecidableEq

/-- Action of one effect on the mapping state: `tk.Tk()` schedules the
new toplevel to be mapped when the event loop next runs, `withdraw`
cancels the scheduled mapping, and the modal dialog runs a local event
loop, which realises a still-pending mapping. -/
def stepTk (s : TkState) : Effect → TkState
  | Effect.tkInit => { s with pendingMap := true }
  | Effect.withdraw => { s with pendingMap := false }
  | Effect.showerror _ _ => { s with everVisible := s.everVisible || s.pendingMap }
  | _ => s

/-- Whether the root window is ever mapped on screen during a trace. -/
def rootEverVisible (tr : List Effect) : Bool :=
  (tr.foldl stepTk { pendingMap := false, everVisible := false }).everVisible

/-- Substring occurrence: `sub` occurs contiguously inside `s`. -/
def containsStr (s sub : String) : Prop :=
  ∃ a b : String, s = a ++ sub ++ b

theorem strData_append (a b : String) : (a ++ b).data = a.data ++ b.data := by
  cases a
  cases b
  rfl

theorem strExt {a b : String} (h : a.data = b.data) : a = b := by
  cases a
  cases b
  exact congrArg String.mk h

theorem strAppend_assoc (a b c : String) : a ++ b ++ c = a ++ (b ++ c) := by
  apply strExt
  rw [strData_append, strData_append, strData_append, strData_append, List.append_assoc]

theorem strAppend_empty (s : String) : s ++ "" = s := by
  apply strExt
  rw [strData_append]
  exact List.append_nil _

/-- On a caught exception the guard runs exactly the handler. -/
theorem launcherGuard_caught (e : PyExc) (h : e.isExceptionSubclass = true) :
    launcherGuard (MainOutcome.raises e) = (Effect.callMain :: exceptBranch e, none) := by
  simp [launcherGuard, h]

/-- C1 fails as stated: `SystemExit` is an exception `main()` can raise,
yet the guard neither catches it nor shows a dialog, because the handler
clause is `except Exception:` and `SystemExit` does not derive from
`Exception`. -/
theorem c1_counterexample :
    ¬ ((launcherGuard (MainOutcome.raises ⟨"SystemExit", "", false⟩)).2 = none ∧
       dialogCount (launcherGuard (MainOutcome.raises ⟨"SystemExit", "", false⟩)).1 = 1) := by
  decide

/-- C1 (amended): for every exception whose class derives from
`Exception` raised by `main()`, the guard catches it, produces exactly
one error-dialog invocation, and lets no exception propagate unhandled
out of the guard. -/
theorem c1_guard_catches (e : PyExc) (h : e.isExceptionSubclass = true) :
    (launcherGuard (MainOutcome.raises e)).2 = none ∧
    dialogCount (launcherGuard (MainOutcome.raises e)).1 = 1 := by
  rw [launcherGuard_caught e h]
  exact ⟨rfl, rfl⟩

/-- Witness for C1 at a concrete caught exception. -/
theorem c1_guard_catches_witness :
    (launcherGuard (MainOutcome.raises ⟨"ValueError", "bad flow", true⟩)).2 = none ∧
    dialogCount (launcherGuard (MainOutcome.raises ⟨"ValueError", "bad flow", true⟩)).1 = 1 :=
  c1_guard_catches ⟨"ValueError", "bad flow", true⟩ rfl

/-- C2: for every caught exception a dialog with the handler's message is
in the trace, and that message contains the literal substring
`logs/avantixrpa.log`, the full captured traceback text, and the raised
exception's own message. -/
theorem c2_dialog_message (e : PyExc) (h : e.isExceptionSubclass = true) :
    Effect.showerror errTitle (errMessage (format_exc e)) ∈
      (launcherGuard (MainOutcome.raises e)).1 ∧
    containsStr (errMessage (format_exc e)) "logs/avantixrpa.log" ∧
    containsStr (errMessage (format_exc e)) (format_exc e) ∧
    containsStr (errMessage (format_exc e)) e.msg := by
  refine ⟨?_, ?_, ?_, ?_⟩
  · rw [launcherGuard_caught e h]
    simp [exceptBranch]
  · refine ⟨msgLine1 ++ "\n" ++ "詳しくは ",
      " を確認してください。" ++ "\n\n" ++ format_exc e, ?_⟩
    have hm2 : msgLine2 = "詳しくは " ++ "logs/avantixrpa.log" ++ " を確認してください。" := by
      decide
    simp only [errMessage]
    rw [hm2]
    simp only [strAppend_assoc]
  · refine ⟨msgLine1 ++ "\n" ++ msgLine2 ++ "\n\n", "", ?_⟩
    rw [strAppend_empty]
    simp only [errMessage]
  · refine ⟨msgLine1 ++ "\n" ++ msgLine2 ++ "\n\n" ++
      ("Traceback (most recent call last):\n" ++ e.clsName ++ ": "), "\n", ?_⟩
    simp only [errMessage, format_exc]
    simp only [strAppend_assoc]

/-- Witness for C2 at the spec's own scenario, RuntimeError("boom"). -/
theorem c2_dialog_message_witness :
    Effect.showerror errTitle (errMessage (format_exc ⟨"RuntimeError", "boom", true⟩)) ∈
      (launcherGuard (MainOutcome.raises ⟨"RuntimeError", "boom", true⟩)).1 ∧
    containsStr (errMessage (format_exc ⟨"RuntimeError", "boom", true⟩))
      "logs/avantixrpa.log" ∧
    containsStr (errMessage (format_exc ⟨"RuntimeError", "boom", true⟩)) "boom" :=
  ⟨(c2_dialog_message ⟨"RuntimeError", "boom", true⟩ rfl).1,
   (c2_dialog_message ⟨"RuntimeError", "boom", true⟩ rfl).2.1,
   (c2_dialog_message ⟨"RuntimeError", "boom", true⟩ rfl).2.2.2⟩

/-- C3: on the failure path the hidden root window is created before the
dialog and destroyed after it as the final action, each happening exactly
once; on the success path it is neither created nor destroyed. -/
theorem c3_window_lifecycle (e : PyExc) (h : e.isExceptionSubclass = true) :
    (launcherGuard (MainOutcome.raises e)).1 =
      [Effect.callMain, Effect.tkInit, Effect.withdraw,
       Effect.showerror errTitle (errMessage (format_exc e)), Effect.destroy] ∧
    tkInitCount (launcherGuard (MainOutcome.raises e)).1 = 1 ∧
    destroyCount (launcherGuard (MainOutcome.raises e)).1 = 1 ∧
    tkInitCount (launcherGuard MainOutcome.returns).1 = 0 ∧
    destroyCount (launcherGuard MainOutcome.returns).1 = 0 := by
  rw [launcherGuard_caught e h]
  exact ⟨rfl, rfl, rfl, rfl, rfl⟩

/-- Witness for C3 at a concrete caught exception. -/
theorem c3_window_lifecycle_witness :
    (launcherGuard (MainOutcome.raises ⟨"TypeError", "t", true⟩)).1 =
      [Effect.callMain, Effect.tkInit, Effect.withdraw,
       Effect.showerror errTitle (errMessage (format_exc ⟨"TypeError", "t", true⟩)),
       Effect.destroy] ∧
    tkInitCount (launcherGuard (MainOutcome.raises ⟨"TypeError", "t", true⟩)).1 = 1 ∧
    destroyCount (launcherGuard (MainOutcome.raises ⟨"TypeError", "t", true⟩)).1 = 1 ∧
    tkInitCount (launcherGuard MainOutcome.returns).1 = 0 ∧
    destroyCount (launcherGuard MainOutcome.returns).1 = 0 :=
  c3_window_lifecycle ⟨"TypeError", "t", true⟩ rfl

/-- C4: when `main()` returns normally the guard does nothing more — the
trace holds only the entry-point call (no dialog, no window) and no
exception escapes. -/
theorem c4_success_no_action :
    launcherGuard MainOutcome.returns = ([Effect.callMain], none) := rfl

/-- C5: the dialog shown on the failure path is titled with the
application name and a startup-error label, and its message is the fixed
two-line localized text, a blank line, then the raw traceback. -/
theorem c5_dialog_layout (e : PyExc) (h : e.isExceptionSubclass = true) :
    Effect.showerror errTitle (errMessage (format_exc e)) ∈
      (launcherGuard (MainOutcome.raises e)).1 ∧
    errTitle = "AVANTIXRPA 起動エラー" ∧
    containsStr errTitle "AVANTIXRPA" ∧
    containsStr errTitle "起動エラー" ∧
    errMessage (format_exc e) =
      "AVANTIXRPA の起動中にエラーが発生しました。" ++ "\n" ++
        "詳しくは logs/avantixrpa.log を確認してください。" ++ "\n\n" ++ format_exc e := by
  refine ⟨?_, rfl, ⟨"", " 起動エラー", by decide⟩, ⟨"AVANTIXRPA ", "", by decide⟩, rfl⟩
  rw [launcherGuard_caught e h]
  simp [exceptBranch]

/-- Witness for C5 at a concrete caught exception. -/
theorem c5_dialog_layout_witness :
    Effect.showerror errTitle (errMessage (format_exc ⟨"ImportError", "no yaml", true⟩)) ∈
      (launcherGuard (MainOutcome.raises ⟨"ImportError", "no yaml", true⟩)).1 ∧
    errTitle = "AVANTIXRPA 起動エラー" ∧
    containsStr errTitle "AVANTIXRPA" ∧
    containsStr errTitle "起動エラー" ∧
    errMessage (format_exc ⟨"ImportError", "no yaml", true⟩) =
      "AVANTIXRPA の起動中にエラーが発生しました。" ++ "\n" ++
        "詳しくは logs/avantixrpa.log を確認してください。" ++ "\n\n" ++
        format_exc ⟨"ImportError", "no yaml", true⟩ :=
  c5_dialog_layout ⟨"ImportError", "no yaml", true⟩ rfl

/-- C6: on the failure path the guard's entire observable behaviour is
the entry-point call, the transient window's creation, withdrawal and
destruction, and the single dialog; nothing else — in particular no
`sys.exit` — and no exception escapes. -/
theorem c6_frame (e : PyExc) (h : e.isExceptionSubclass = true) :
    launcherGuard (MainOutcome.raises e) =
      ([Effect.callMain, Effect.tkInit, Effect.withdraw,
        Effect.showerror errTitle (errMessage (format_exc e)), Effect.destroy], none) ∧
    sysExitCount (launcherGuard (MainOutcome.raises e)).1 = 0 := by
  rw [launcherGuard_caught e h]
  exact ⟨rfl, rfl⟩

/-- Witness for C6 at a concrete caught exception. -/
theorem c6_frame_witness :
    launcherGuard (MainOutcome.raises ⟨"OSError", "disk", true⟩) =
      ([Effect.callMain, Effect.tkInit, Effect.withdraw,
        Effect.showerror errTitle (errMessage (format_exc ⟨"OSError", "disk", true⟩)),
        Effect.destroy], none) ∧
    sysExitCount (launcherGuard (MainOutcome.raises ⟨"OSError", "disk", true⟩)).1 = 0 :=
  c6_frame ⟨"OSError", "disk", true⟩ rfl

/-- C7: a caught failure is not re-raised (no exception escapes), the
entry point is invoked exactly once (no retry), and the guard performs no
explicit `sys.exit` call. -/
theorem c7_no_reraise (e : PyExc) (h : e.isExceptionSubclass = true) :
    (launcherGuard (MainOutcome.raises e)).2 = none ∧
    callMainCount (launcherGuard (MainOutcome.raises e)).1 = 1 ∧
    sysExitCount (launcherGuard (MainOutcome.raises e)).1 = 0 := by
  rw [launcherGuard_caught e h]
  exact ⟨rfl, rfl, rfl⟩

/-- Witness for C7 at a concrete caught exception. -/
theorem c7_no_reraise_witness :
    (launcherGuard (MainOutcome.raises ⟨"KeyError", "step", true⟩)).2 = none ∧
    callMainCount (launcherGuard (MainOutcome.raises ⟨"KeyError", "step", true⟩)).1 = 1 ∧
    sysExitCount (launcherGuard (MainOutcome.raises ⟨"KeyError", "step", true⟩)).1 = 0 :=
  c7_no_reraise ⟨"KeyError", "step", true⟩ rfl

/-- C8: an exception whose class does not derive from `Exception` is not
caught: the trace holds only the entry-point call — no window, no dialog
— and the exception propagates out of the guard. -/
theorem c8_base_exception_propagates (e : PyExc) (h : e.isExceptionSubclass = false) :
    launcherGuard (MainOutcome.raises e) = ([Effect.callMain], some e) := by
  simp [launcherGuard, h]

/-- Witness for C8 at KeyboardInterrupt. -/
theorem c8_base_exception_propagates_witness :
    launcherGuard (MainOutcome.raises ⟨"KeyboardInterrupt", "", false⟩) =
      ([Effect.callMain], some ⟨"KeyboardInterrupt", "", false⟩) :=
  c8_base_exception_propagates ⟨"KeyboardInterrupt", "", false⟩ rfl

/-- C9: on the failure path `withdraw` is the action immediately after
the root window's creation and comes before the dialog, and on every
path — success, caught failure, uncaught failure — the root window is
never mapped on screen. -/
theorem c9_never_visible (e : PyExc) (h : e.isExceptionSubclass = true) :
    (launcherGuard (MainOutcome.raises e)).1 =
      [Effect.callMain] ++ [Effect.tkInit, Effect.withdraw] ++
        [Effect.showerror errTitle (errMessage (format_exc e)), Effect.destroy] ∧
    (∀ o : MainOutcome, rootEverVisible (launcherGuard o).1 = false) := by
  refine ⟨by rw [launcherGuard_caught e h]; rfl, ?_⟩
  intro o
  cases o with
  | returns => rfl
  | raises f =>
    cases hf : f.isExceptionSubclass with
    | true =>
      rw [launcherGuard_caught f hf]
      rfl
    | false =>
      have hp : launcherGuard (MainOutcome.raises f) = ([Effect.callMain], some f) := by
        simp [launcherGuard, hf]
      rw [hp]
      rfl

/-- Witness for C9 at a concrete caught exception. -/
theorem c9_never_visible_witness :
    (launcherGuard (MainOutcome.raises ⟨"RuntimeError", "late", true⟩)).1 =
      [Effect.callMain] ++ [Effect.tkInit, Effect.withdraw] ++
        [Effect.showerror errTitle (errMessage (format_exc ⟨"RuntimeError", "late", true⟩)),
         Effect.destroy] ∧
    (∀ o : MainOutcome, rootEverVisible (launcherGuard o).1 = false) :=
  c9_never_visible ⟨"RuntimeError", "late", true⟩ rfl

end AvantixRPA
